import Mathlib

/-!
Verification development for the clear-sky solar irradiance model
(Haurwitz + ERBS) of `custom_components/clear_sky_solar/model.py`.

The numerical pipeline is embedded over the real numbers. The two external
collaborators (the astral solar-position routine and the host local-time
helper `dt_util.as_local`) are modelled as an abstract environment `Env`:
the code only ever consumes their outputs (solar elevation in degrees and
local day-of-year), so every theorem quantifies over the environment.

Python `datetime` values are modelled by the `Datetime` structure: civil
fields plus an optional timezone tag, which is all `model.py` inspects
(`ts.tzinfo` truthiness and `ts.replace(tzinfo=UTC)`).

The auxiliary calibration helper `estimate_site_scale_factor` is embedded
over the rationals, with the `ValueError` path represented by `Except`.
-/

namespace ClearSkySolar

/-- Timezone tag carried by a `datetime` object; the code only distinguishes
the absence of a tag, the UTC singleton, and any other timezone. -/
inductive Tzinfo where
  | utc : Tzinfo
  | named : String → Tzinfo
deriving DecidableEq

/-- Model of a Python `datetime`: naive civil fields plus optional `tzinfo`.
`replace(tzinfo=UTC)` keeps every civil field and swaps the tag. -/
structure Datetime where
  year : Int
  month : Nat
  day : Nat
  hour : Nat
  minute : Nat
  second : Nat
  microsecond : Nat
  tzinfo : Option Tzinfo
deriving DecidableEq

/-- External collaborators of `model.py`: `solar_elevation` wraps
`astral.sun.elevation` composed with `dt_util.as_local`, and `day_of_year`
wraps `dt_util.as_local(ts).timetuple().tm_yday`. Both are black boxes
applied to the timezone-aware timestamp. -/
structure Env where
  solar_elevation : ℝ → ℝ → Datetime → ℝ
  day_of_year : Datetime → ℕ

/-- Container for clear-sky irradiance components, from `ClearSkyResult`. -/
structure ClearSkyResult where
  ghi : ℝ
  dni : ℝ
  dhi : ℝ

/-- Source `_as_aware_utc`: return `ts` if it has a tzinfo, else tag it UTC. -/
def as_aware_utc (ts : Datetime) : Datetime :=
  match ts.tzinfo with
  | none => { ts with tzinfo := some Tzinfo.utc }
  | some _ => ts

/-- Solar constant `ISC = 1367` W/m^2. -/
noncomputable def ISC : ℝ := 1367

/-- Source `_eccentricity_correction`: Spencer/NREL Earth-Sun distance
correction factor E0 as a function of the day of year `n`. -/
noncomputable def eccentricity_correction (n : ℕ) : ℝ :=
  let g := 2 * Real.pi * ((n : ℝ) - 1) / 365
  1.00011
    + 0.034221 * Real.cos g
    + 0.00128 * Real.sin g
    + 0.000719 * Real.cos (2 * g)
    + 0.000077 * Real.sin (2 * g)

/-- Degrees to radians, `math.radians`. -/
noncomputable def radians (d : ℝ) : ℝ := d * Real.pi / 180

/-- Source `_mu_from_elevation`: μ = cos(zenith) = cos(90° − elevation). -/
noncomputable def mu_from_elevation (elev_deg : ℝ) : ℝ :=
  Real.cos (radians (90 - elev_deg))

/-- Source `_haurwitz_ghi_from_mu`: original Haurwitz clear-sky GHI,
`1098 · μ_eff · exp(−0.057/μ_eff)` with `μ_eff = max(1e-6, μ)`, and 0 for
non-positive μ. -/
noncomputable def haurwitz_ghi_from_mu (mu : ℝ) : ℝ :=
  if mu ≤ 0 then 0
  else
    let mu_eff := max 1e-6 mu
    1098 * mu_eff * Real.exp (-0.057 / mu_eff)

/-- Source `_mu_shape_correction`: `1 − 0.05·(1−μ)^1.6` for positive μ,
0 otherwise. -/
noncomputable def mu_shape_correction (mu : ℝ) : ℝ :=
  if mu ≤ 0 then 0
  else 1 - 0.05 * (1 - mu) ^ (1.6 : ℝ)

/-- Source `_altitude_gain_factor`: `clamp(1 + 0.07·max(0,h)/1000, 0.92, 1.18)`. -/
noncomputable def altitude_gain_factor (elevation_m : ℝ) : ℝ :=
  let f := 1 + 0.07 * max 0 elevation_m / 1000
  max 0.92 (min 1.18 f)

/-- Source `_turbidity_attenuation`: `exp(−0.04·(clamp(TL,1.5,8.0) − 3.0))`. -/
noncomputable def turbidity_attenuation (linke_turbidity : ℝ) : ℝ :=
  let tl := max 1.5 (min 8 linke_turbidity)
  Real.exp (-0.04 * (tl - 3))

/-- Source `_erbs_diffuse_fraction`: ERBS diffuse fraction, piecewise in the
clearness index `kt`. -/
noncomputable def erbs_diffuse_fraction (kt : ℝ) : ℝ :=
  if kt < 0.22 then 1 - 0.09 * kt
  else if kt < 0.8 then
    0.9511 - 0.1604 * kt + 4.388 * kt ^ 2 - 16.638 * kt ^ 3 + 12.336 * kt ^ 4
  else 0.165

/-- Source `compute_clear_sky`: the full pipeline. Python defaults are
`elevation_m = 0.0` and `linke_turbidity = 3.0`; here both are explicit. -/
noncomputable def compute_clear_sky (env : Env) (lat lon : ℝ) (when : Datetime)
    (elevation_m linke_turbidity : ℝ) : ClearSkyResult :=
  let when := as_aware_utc when
  let elev := env.solar_elevation lat lon when
  if elev ≤ 0 then ⟨0, 0, 0⟩
  else
    let mu := max 0 (mu_from_elevation elev)
    let n := env.day_of_year when
    let dni0 := ISC * eccentricity_correction n
    let ghi0 := dni0 * mu
    let ghi_base := haurwitz_ghi_from_mu mu * mu_shape_correction mu
    let ghi1 := ghi_base * altitude_gain_factor elevation_m
      * turbidity_attenuation linke_turbidity
    let ghi_cap := 0.98 * ghi0
    let ghi := max 0 (min ghi1 ghi_cap)
    let ghi0_guard := max 1e-3 ghi0
    let kt := min 1.2 (ghi / ghi0_guard)
    let fd := erbs_diffuse_fraction kt
    let dhi := max 0 (min ghi (fd * ghi))
    let mu_guard := max 1e-3 mu
    let dni := max 0 ((ghi - dhi) / mu_guard)
    ⟨ghi, dni, dhi⟩

/-- Interval clamp, spelled as the source spells it: `max lo (min x hi)`. -/
noncomputable def clamp (x lo hi : ℝ) : ℝ := max lo (min x hi)

/-- Insert a value into a sorted list, keeping it sorted (ascending). -/
def insertSorted (x : ℚ) : List ℚ → List ℚ
  | [] => [x]
  | y :: ys => if x ≤ y then x :: y :: ys else y :: insertSorted x ys

/-- Ascending insertion sort, modelling the sort inside `statistics.median`. -/
def sortAsc (xs : List ℚ) : List ℚ := xs.foldr insertSorted []

/-- Modelled from the Python standard library `statistics.median` (called by
`estimate_site_scale_factor`, not part of the repository): sort the data;
for odd length take the middle element, for even length average the two
middle elements. -/
def median (xs : List ℚ) : ℚ :=
  let s := sortAsc xs
  let n := s.length
  if n % 2 = 1 then s.getD (n / 2) 0
  else (s.getD (n / 2 - 1) 0 + s.getD (n / 2) 0) / 2

/-- Source `estimate_site_scale_factor`, over the rationals. The
`raise ValueError("invalid_sequence_lengths")` path is the `Except.error`
value; the chained Python comparison `len(a) == len(b) == len(c)` is the
conjunction of the two adjacent equalities. The loop body skips a sample
when its elevation is outside `[min_elev, max_elev]` or its modeled value
is at most the numeric floor `1e-6`, and keeps the observed/modeled
quotient `r` only when `r > 0`. -/
def estimate_site_scale_factor (observed_ghi modeled_ghi elevations_deg : List ℚ)
    (min_elev max_elev : ℚ) : Except String ℚ :=
  if ¬ (observed_ghi.length = modeled_ghi.length
      ∧ modeled_ghi.length = elevations_deg.length) then
    Except.error "invalid_sequence_lengths"
  else
    let pairs := (observed_ghi.zip (modeled_ghi.zip elevations_deg)).filterMap
      (fun p =>
        let obs := p.1
        let md := p.2.1
        let el := p.2.2
        if el < min_elev ∨ el > max_elev then none
        else if md ≤ 1e-6 then none
        else
          let r := obs / md
          if r > 0 then some r else none)
    if pairs = [] then Except.ok 1.0 else Except.ok (median pairs)

/-- The sample list the specification describes for the calibration helper:
index `i` is retained exactly when `min_elev ≤ elevations[i] ≤ max_elev`,
`modeled[i] > 1e-6` and the quotient `observed[i]/modeled[i]` is positive. -/
def retainedSamples (observed_ghi modeled_ghi elevations_deg : List ℚ)
    (min_elev max_elev : ℚ) : List ℚ :=
  (List.range observed_ghi.length).filterMap
    (fun i =>
      let obs := observed_ghi.getD i 0
      let md := modeled_ghi.getD i 0
      let el := elevations_deg.getD i 0
      let r := obs / md
      if min_elev ≤ el ∧ el ≤ max_elev ∧ 1e-6 < md ∧ 0 < r then some r else none)

/-! ### Supporting lemmas about the numeric pipeline -/

lemma eccentricity_correction_pos (n : ℕ) : 0 < eccentricity_correction n := by
  unfold eccentricity_correction
  set g := 2 * Real.pi * ((n : ℝ) - 1) / 365 with hg
  have h1 := Real.neg_one_le_cos g
  have h2 := Real.neg_one_le_sin g
  have h3 := Real.neg_one_le_cos (2 * g)
  have h4 := Real.neg_one_le_sin (2 * g)
  nlinarith

lemma ISC_pos : (0 : ℝ) < ISC := by unfold ISC; norm_num

lemma mu_clamped_nonneg (e : ℝ) : 0 ≤ max 0 (mu_from_elevation e) :=
  le_max_left _ _

lemma mu_clamped_le_one (e : ℝ) : max 0 (mu_from_elevation e) ≤ 1 :=
  max_le (by norm_num) (Real.cos_le_one _)

lemma mu_from_elevation_pos (e : ℝ) (h1 : 0 < e) (h2 : e < 180) :
    0 < mu_from_elevation e := by
  unfold mu_from_elevation radians
  have hpi := Real.pi_pos
  apply Real.cos_pos_of_mem_Ioo
  constructor
  · have : (90 - e) * Real.pi / 180 > -(Real.pi / 2) := by nlinarith
    simpa using this
  · nlinarith

lemma ghi0_nonneg (n : ℕ) (e : ℝ) :
    0 ≤ ISC * eccentricity_correction n * max 0 (mu_from_elevation e) :=
  mul_nonneg (mul_nonneg ISC_pos.le (eccentricity_correction_pos n).le)
    (mu_clamped_nonneg e)

/-- Unfolding of the day branch of `compute_clear_sky` against named values
for every intermediate quantity of the source pipeline. -/
lemma compute_clear_sky_day (env : Env) (lat lon : ℝ) (when : Datetime)
    (elevation_m linke_turbidity : ℝ)
    (elev mu dni0 ghi0 ghi1 ghi kt fd dhi dni : ℝ) (n : ℕ)
    (helev : elev = env.solar_elevation lat lon (as_aware_utc when))
    (hpos : 0 < elev)
    (hmu : mu = max 0 (mu_from_elevation elev))
    (hn : n = env.day_of_year (as_aware_utc when))
    (hdni0 : dni0 = ISC * eccentricity_correction n)
    (hghi0 : ghi0 = dni0 * mu)
    (hghi1 : ghi1 = haurwitz_ghi_from_mu mu * mu_shape_correction mu
      * altitude_gain_factor elevation_m * turbidity_attenuation linke_turbidity)
    (hghi : ghi = max 0 (min ghi1 (0.98 * ghi0)))
    (hkt : kt = min 1.2 (ghi / max 1e-3 ghi0))
    (hfd : fd = erbs_diffuse_fraction kt)
    (hdhi : dhi = max 0 (min ghi (fd * ghi)))
    (hdni : dni = max 0 ((ghi - dhi) / max 1e-3 mu)) :
    compute_clear_sky env lat lon when elevation_m linke_turbidity
      = ⟨ghi, dni, dhi⟩ := by
  subst helev hmu hn hdni0 hghi0 hghi1 hghi hkt hfd hdhi hdni
  simp only [compute_clear_sky]
  rw [if_neg (not_le.mpr hpos)]

/-! ### Claims about `compute_clear_sky` (first group) -/

/-- Claim C2: whenever the solar elevation computed for the (awarified)
timestamp is at most 0 degrees, `compute_clear_sky` returns exactly
`(0, 0, 0)`: the guard short-circuits the pipeline. -/
theorem night_short_circuit (env : Env) (lat lon : ℝ) (when : Datetime)
    (elevation_m linke_turbidity : ℝ)
    (h : env.solar_elevation lat lon (as_aware_utc when) ≤ 0) :
    compute_clear_sky env lat lon when elevation_m linke_turbidity
      = ⟨0, 0, 0⟩ := by
  simp only [compute_clear_sky]
  rw [if_pos h]

/-- Environment used to witness the claims at concrete inputs: a constant
solar-elevation of 45 degrees and day-of-year 172. -/
noncomputable def envDay : Env := ⟨fun _ _ _ => 45, fun _ => 172⟩

/-- Environment whose solar elevation is a constant −5 degrees (night). -/
noncomputable def envNight : Env := ⟨fun _ _ _ => -5, fun _ => 172⟩

/-- Aware timestamp used in witnesses. -/
def dtAware : Datetime := ⟨2024, 6, 21, 20, 0, 0, 0, some Tzinfo.utc⟩

/-- Naive timestamp used in witnesses. -/
def dtNaive : Datetime := ⟨2024, 6, 21, 20, 0, 0, 0, none⟩

theorem night_short_circuit_check :
    (envNight.solar_elevation 37 (-122) (as_aware_utc dtAware) ≤ 0)
      ∧ compute_clear_sky envNight 37 (-122) dtAware 16 3
          = ⟨0, 0, 0⟩ := by
  have h : envNight.solar_elevation 37 (-122) (as_aware_utc dtAware) ≤ 0 := by
    show (-5 : ℝ) ≤ 0
    norm_num
  exact ⟨h, night_short_circuit envNight 37 (-122) dtAware 16 3 h⟩

/-- Claim C1: for every input, the result satisfies `ghi ≥ 0`, `dni ≥ 0`,
`dhi ≥ 0` and `dhi ≤ ghi`. -/
theorem result_nonneg_and_dhi_le_ghi (env : Env) (lat lon : ℝ) (when : Datetime)
    (elevation_m linke_turbidity : ℝ) :
    0 ≤ (compute_clear_sky env lat lon when elevation_m linke_turbidity).ghi
    ∧ 0 ≤ (compute_clear_sky env lat lon when elevation_m linke_turbidity).dni
    ∧ 0 ≤ (compute_clear_sky env lat lon when elevation_m linke_turbidity).dhi
    ∧ (compute_clear_sky env lat lon when elevation_m linke_turbidity).dhi
        ≤ (compute_clear_sky env lat lon when elevation_m linke_turbidity).ghi := by
  by_cases h : env.solar_elevation lat lon (as_aware_utc when) ≤ 0
  · have hz : compute_clear_sky env lat lon when elevation_m linke_turbidity
        = ⟨0, 0, 0⟩ := by
      simp only [compute_clear_sky]
      rw [if_pos h]
    rw [hz]
    norm_num
  · push_neg at h
    rw [compute_clear_sky_day env lat lon when elevation_m linke_turbidity
      _ _ _ _ _ _ _ _ _ _ _ rfl h rfl rfl rfl rfl rfl rfl rfl rfl rfl rfl]
    refine ⟨le_max_left _ _, le_max_left _ _, le_max_left _ _, ?_⟩
    exact max_le (le_max_left _ _) (min_le_left _ _)

/-- Claim C3: with the sun up, the returned GHI never exceeds
`0.98 · dni0 · μ` where `dni0 = ISC · E0(n)` and `μ = max(0, cos(90° − elev))`. -/
theorem ghi_extraterrestrial_cap (env : Env) (lat lon : ℝ) (when : Datetime)
    (elevation_m linke_turbidity : ℝ)
    (h : 0 < env.solar_elevation lat lon (as_aware_utc when)) :
    (compute_clear_sky env lat lon when elevation_m linke_turbidity).ghi
      ≤ 0.98
        * (ISC * eccentricity_correction (env.day_of_year (as_aware_utc when)))
        * max 0 (mu_from_elevation (env.solar_elevation lat lon (as_aware_utc when))) := by
  rw [compute_clear_sky_day env lat lon when elevation_m linke_turbidity
    _ _ _ _ _ _ _ _ _ _ _ rfl h rfl rfl rfl rfl rfl rfl rfl rfl rfl rfl]
  have hcap : 0 ≤ 0.98 * (ISC
      * eccentricity_correction (env.day_of_year (as_aware_utc when))
      * max 0 (mu_from_elevation (env.solar_elevation lat lon (as_aware_utc when)))) := by
    have := ghi0_nonneg (env.day_of_year (as_aware_utc when))
      (env.solar_elevation lat lon (as_aware_utc when))
    linarith
  calc max 0 (min (haurwitz_ghi_from_mu _ * mu_shape_correction _
        * altitude_gain_factor elevation_m * turbidity_attenuation linke_turbidity)
        (0.98 * (ISC * eccentricity_correction _ * max 0 (mu_from_elevation _))))
      ≤ 0.98 * (ISC * eccentricity_correction (env.day_of_year (as_aware_utc when))
        * max 0 (mu_from_elevation (env.solar_elevation lat lon (as_aware_utc when)))) :=
        max_le hcap (min_le_right _ _)
    _ = 0.98 * (ISC * eccentricity_correction (env.day_of_year (as_aware_utc when)))
        * max 0 (mu_from_elevation (env.solar_elevation lat lon (as_aware_utc when))) := by
        ring

theorem ghi_extraterrestrial_cap_check :
    (0 < envDay.solar_elevation 37 (-122) (as_aware_utc dtAware))
      ∧ (compute_clear_sky envDay 37 (-122) dtAware 16 3).ghi
          ≤ 0.98
            * (ISC * eccentricity_correction (envDay.day_of_year (as_aware_utc dtAware)))
            * max 0 (mu_from_elevation
                (envDay.solar_elevation 37 (-122) (as_aware_utc dtAware))) := by
  have h : 0 < envDay.solar_elevation 37 (-122) (as_aware_utc dtAware) := by
    show (0 : ℝ) < 45
    norm_num
  exact ⟨h, ghi_extraterrestrial_cap envDay 37 (-122) dtAware 16 3 h⟩

/-- Claim C10: once the sun is up, the capped GHI keeps the raw clearness
quotient at or below 0.98, so the `min 1.2` guard on `kt` never alters the
value: the `kt > 1.2` branch is unreachable. -/
theorem kt_min_never_binds (env : Env) (lat lon : ℝ) (when : Datetime)
    (elevation_m linke_turbidity : ℝ)
    (h : 0 < env.solar_elevation lat lon (as_aware_utc when)) :
    (compute_clear_sky env lat lon when elevation_m linke_turbidity).ghi
        / max 1e-3 (ISC * eccentricity_correction (env.day_of_year (as_aware_utc when))
          * max 0 (mu_from_elevation (env.solar_elevation lat lon (as_aware_utc when))))
      ≤ 0.98
    ∧ min 1.2 ((compute_clear_sky env lat lon when elevation_m linke_turbidity).ghi
        / max 1e-3 (ISC * eccentricity_correction (env.day_of_year (as_aware_utc when))
          * max 0 (mu_from_elevation (env.solar_elevation lat lon (as_aware_utc when)))))
      = (compute_clear_sky env lat lon when elevation_m linke_turbidity).ghi
        / max 1e-3 (ISC * eccentricity_correction (env.day_of_year (as_aware_utc when))
          * max 0 (mu_from_elevation (env.solar_elevation lat lon (as_aware_utc when)))) := by
  set N := env.day_of_year (as_aware_utc when) with hN
  set E := env.solar_elevation lat lon (as_aware_utc when) with hE
  set G0 := ISC * eccentricity_correction N * max 0 (mu_from_elevation E) with hG0
  have hguard : (0 : ℝ) < max 1e-3 G0 := lt_of_lt_of_le (by norm_num) (le_max_left _ _)
  have hghi : (compute_clear_sky env lat lon when elevation_m linke_turbidity).ghi
      ≤ 0.98 * max 1e-3 G0 := by
    rw [compute_clear_sky_day env lat lon when elevation_m linke_turbidity
      _ _ _ _ _ _ _ _ _ _ _ rfl h rfl rfl rfl rfl rfl rfl rfl rfl rfl rfl]
    have hc : (0 : ℝ) ≤ 0.98 * G0 := by
      have := ghi0_nonneg N E
      rw [← hG0] at this
      linarith
    have h1 : max (0 : ℝ) (min (haurwitz_ghi_from_mu (max 0 (mu_from_elevation E))
        * mu_shape_correction (max 0 (mu_from_elevation E))
        * altitude_gain_factor elevation_m * turbidity_attenuation linke_turbidity)
        (0.98 * (ISC * eccentricity_correction N * max 0 (mu_from_elevation E))))
        ≤ 0.98 * G0 := by
      rw [hG0]
      exact max_le (by rw [← hG0]; exact hc) (min_le_right _ _)
    refine le_trans h1 ?_
    have := le_max_right (1e-3 : ℝ) G0
    nlinarith
  have hdiv : (compute_clear_sky env lat lon when elevation_m linke_turbidity).ghi
      / max 1e-3 G0 ≤ 0.98 := by
    rw [div_le_iff₀ hguard]
    linarith
  exact ⟨hdiv, min_eq_right (le_trans hdiv (by norm_num))⟩

theorem kt_min_never_binds_check :
    (0 < envDay.solar_elevation 37 (-122) (as_aware_utc dtAware))
    ∧ ((compute_clear_sky envDay 37 (-122) dtAware 16 3).ghi
        / max 1e-3 (ISC * eccentricity_correction (envDay.day_of_year (as_aware_utc dtAware))
          * max 0 (mu_from_elevation (envDay.solar_elevation 37 (-122) (as_aware_utc dtAware))))
      ≤ 0.98
    ∧ min 1.2 ((compute_clear_sky envDay 37 (-122) dtAware 16 3).ghi
        / max 1e-3 (ISC * eccentricity_correction (envDay.day_of_year (as_aware_utc dtAware))
          * max 0 (mu_from_elevation (envDay.solar_elevation 37 (-122) (as_aware_utc dtAware)))))
      = (compute_clear_sky envDay 37 (-122) dtAware 16 3).ghi
        / max 1e-3 (ISC * eccentricity_correction (envDay.day_of_year (as_aware_utc dtAware))
          * max 0 (mu_from_elevation (envDay.solar_elevation 37 (-122) (as_aware_utc dtAware))))) := by
  have h : 0 < envDay.solar_elevation 37 (-122) (as_aware_utc dtAware) := by
    show (0 : ℝ) < 45
    norm_num
  exact ⟨h, kt_min_never_binds envDay 37 (-122) dtAware 16 3 h⟩

/-- Claim C4: with the sun up (μ > 0), the returned GHI is exactly the
clamped product of Haurwitz, shape, altitude and turbidity factors:
`clamp(H·S·A·T, 0, 0.98·ghi0)`. The hypothesis `elev < 180` records that
the astral routine reports elevations in [−90°, 90°], so a positive
elevation forces μ = cos(90° − elev) > 0. -/
theorem ghi_haurwitz_formula (env : Env) (lat lon : ℝ) (when : Datetime)
    (elevation_m linke_turbidity : ℝ)
    (h1 : 0 < env.solar_elevation lat lon (as_aware_utc when))
    (h2 : env.solar_elevation lat lon (as_aware_utc when) < 180) :
    (compute_clear_sky env lat lon when elevation_m linke_turbidity).ghi
      = clamp
          (1098 * max 1e-6 (max 0 (mu_from_elevation (env.solar_elevation lat lon (as_aware_utc when))))
              * Real.exp (-0.057 / max 1e-6 (max 0 (mu_from_elevation (env.solar_elevation lat lon (as_aware_utc when)))))
            * (1 - 0.05 * (1 - max 0 (mu_from_elevation (env.solar_elevation lat lon (as_aware_utc when)))) ^ (1.6 : ℝ))
            * clamp (1 + 0.07 * max 0 elevation_m / 1000) 0.92 1.18
            * Real.exp (-0.04 * (clamp linke_turbidity 1.5 8 - 3)))
          0
          (0.98 * (ISC * eccentricity_correction (env.day_of_year (as_aware_utc when))
            * max 0 (mu_from_elevation (env.solar_elevation lat lon (as_aware_utc when))))) := by
  set E := env.solar_elevation lat lon (as_aware_utc when) with hE
  have hMpos : 0 < max 0 (mu_from_elevation E) :=
    lt_max_iff.mpr (Or.inr (mu_from_elevation_pos E h1 h2))
  rw [compute_clear_sky_day env lat lon when elevation_m linke_turbidity
    _ _ _ _ _ _ _ _ _ _ _ rfl h1 rfl rfl rfl rfl rfl rfl rfl rfl rfl rfl]
  show max 0 (min (haurwitz_ghi_from_mu (max 0 (mu_from_elevation E))
      * mu_shape_correction (max 0 (mu_from_elevation E))
      * altitude_gain_factor elevation_m * turbidity_attenuation linke_turbidity)
      (0.98 * (ISC * eccentricity_correction (env.day_of_year (as_aware_utc when))
        * max 0 (mu_from_elevation E)))) = _
  have hH : haurwitz_ghi_from_mu (max 0 (mu_from_elevation E))
      = 1098 * max 1e-6 (max 0 (mu_from_elevation E))
        * Real.exp (-0.057 / max 1e-6 (max 0 (mu_from_elevation E))) := by
    unfold haurwitz_ghi_from_mu
    rw [if_neg (not_le.mpr hMpos)]
  have hS : mu_shape_correction (max 0 (mu_from_elevation E))
      = 1 - 0.05 * (1 - max 0 (mu_from_elevation E)) ^ (1.6 : ℝ) := by
    unfold mu_shape_correction
    rw [if_neg (not_le.mpr hMpos)]
  have hA : altitude_gain_factor elevation_m
      = clamp (1 + 0.07 * max 0 elevation_m / 1000) 0.92 1.18 := by
    unfold altitude_gain_factor clamp
    rw [min_comm]
  have hT : turbidity_attenuation linke_turbidity
      = Real.exp (-0.04 * (clamp linke_turbidity 1.5 8 - 3)) := by
    unfold turbidity_attenuation clamp
    rw [min_comm]
  rw [hH, hS, hA, hT]
  rfl

theorem ghi_haurwitz_formula_check :
    ((0 < envDay.solar_elevation 37 (-122) (as_aware_utc dtAware))
      ∧ envDay.solar_elevation 37 (-122) (as_aware_utc dtAware) < 180)
    ∧ (compute_clear_sky envDay 37 (-122) dtAware 16 3).ghi
      = clamp
          (1098 * max 1e-6 (max 0 (mu_from_elevation (envDay.solar_elevation 37 (-122) (as_aware_utc dtAware))))
              * Real.exp (-0.057 / max 1e-6 (max 0 (mu_from_elevation (envDay.solar_elevation 37 (-122) (as_aware_utc dtAware)))))
            * (1 - 0.05 * (1 - max 0 (mu_from_elevation (envDay.solar_elevation 37 (-122) (as_aware_utc dtAware)))) ^ (1.6 : ℝ))
            * clamp (1 + 0.07 * max 0 (16 : ℝ) / 1000) 0.92 1.18
            * Real.exp (-0.04 * (clamp 3 1.5 8 - 3)))
          0
          (0.98 * (ISC * eccentricity_correction (envDay.day_of_year (as_aware_utc dtAware))
            * max 0 (mu_from_elevation (envDay.solar_elevation 37 (-122) (as_aware_utc dtAware))))) := by
  have h1 : 0 < envDay.solar_elevation 37 (-122) (as_aware_utc dtAware) := by
    show (0 : ℝ) < 45
    norm_num
  have h2 : envDay.solar_elevation 37 (-122) (as_aware_utc dtAware) < 180 := by
    show (45 : ℝ) < 180
    norm_num
  exact ⟨⟨h1, h2⟩, ghi_haurwitz_formula envDay 37 (-122) dtAware 16 3 h1 h2⟩

/-- Claim C5: with the sun up, the diffuse split is exactly the ERBS recipe:
`kt = min(1.2, ghi/max(1e-3, ghi0))`, the three-branch diffuse fraction,
`dhi = clamp(fd·ghi, 0, ghi)` and `dni = max(0, (ghi − dhi)/max(1e-3, μ))`. -/
theorem erbs_split_formula (env : Env) (lat lon : ℝ) (when : Datetime)
    (elevation_m linke_turbidity : ℝ)
    (h : 0 < env.solar_elevation lat lon (as_aware_utc when)) :
    (compute_clear_sky env lat lon when elevation_m linke_turbidity).dhi
      = clamp
          ((let kt := min 1.2
              ((compute_clear_sky env lat lon when elevation_m linke_turbidity).ghi
                / max 1e-3 (ISC * eccentricity_correction (env.day_of_year (as_aware_utc when))
                  * max 0 (mu_from_elevation (env.solar_elevation lat lon (as_aware_utc when)))));
            if kt < 0.22 then 1 - 0.09 * kt
            else if kt < 0.8 then
              0.9511 - 0.1604 * kt + 4.388 * kt ^ 2 - 16.638 * kt ^ 3 + 12.336 * kt ^ 4
            else 0.165)
            * (compute_clear_sky env lat lon when elevation_m linke_turbidity).ghi)
          0
          (compute_clear_sky env lat lon when elevation_m linke_turbidity).ghi
    ∧ (compute_clear_sky env lat lon when elevation_m linke_turbidity).dni
      = max 0
          (((compute_clear_sky env lat lon when elevation_m linke_turbidity).ghi
            - (compute_clear_sky env lat lon when elevation_m linke_turbidity).dhi)
            / max 1e-3 (max 0 (mu_from_elevation (env.solar_elevation lat lon (as_aware_utc when))))) := by
  rw [compute_clear_sky_day env lat lon when elevation_m linke_turbidity
    _ _ _ _ _ _ _ _ _ _ _ rfl h rfl rfl rfl rfl rfl rfl rfl rfl rfl rfl]
  constructor
  · show max 0 (min _ (erbs_diffuse_fraction _ * _)) = clamp _ 0 _
    unfold clamp erbs_diffuse_fraction
    rw [min_comm]
  · rfl

theorem erbs_split_formula_check :
    (0 < envDay.solar_elevation 37 (-122) (as_aware_utc dtAware))
    ∧ ((compute_clear_sky envDay 37 (-122) dtAware 16 3).dhi
      = clamp
          ((let kt := min 1.2
              ((compute_clear_sky envDay 37 (-122) dtAware 16 3).ghi
                / max 1e-3 (ISC * eccentricity_correction (envDay.day_of_year (as_aware_utc dtAware))
                  * max 0 (mu_from_elevation (envDay.solar_elevation 37 (-122) (as_aware_utc dtAware)))));
            if kt < 0.22 then 1 - 0.09 * kt
            else if kt < 0.8 then
              0.9511 - 0.1604 * kt + 4.388 * kt ^ 2 - 16.638 * kt ^ 3 + 12.336 * kt ^ 4
            else 0.165)
            * (compute_clear_sky envDay 37 (-122) dtAware 16 3).ghi)
          0
          (compute_clear_sky envDay 37 (-122) dtAware 16 3).ghi
    ∧ (compute_clear_sky envDay 37 (-122) dtAware 16 3).dni
      = max 0
          (((compute_clear_sky envDay 37 (-122) dtAware 16 3).ghi
            - (compute_clear_sky envDay 37 (-122) dtAware 16 3).dhi)
            / max 1e-3 (max 0 (mu_from_elevation (envDay.solar_elevation 37 (-122) (as_aware_utc dtAware)))))) := by
  have h : 0 < envDay.solar_elevation 37 (-122) (as_aware_utc dtAware) := by
    show (0 : ℝ) < 45
    norm_num
  exact ⟨h, erbs_split_formula envDay 37 (-122) dtAware 16 3 h⟩

/-! ### Timestamp normalization -/

lemma as_aware_utc_of_none {t : Datetime} (h : t.tzinfo = none) :
    as_aware_utc t = { t with tzinfo := some Tzinfo.utc } := by
  obtain ⟨y, mo, d, hh, mi, s, us, tz⟩ := t
  simp only at h
  subst h
  rfl

lemma as_aware_utc_of_some {t : Datetime} {z : Tzinfo} (h : t.tzinfo = some z) :
    as_aware_utc t = t := by
  obtain ⟨y, mo, d, hh, mi, s, us, tz⟩ := t
  simp only at h
  subst h
  rfl

/-- Claim C9: a naive timestamp is interpreted as UTC: the result on a
timestamp with no tzinfo is the result on the same timestamp tagged UTC. -/
theorem naive_timestamp_is_utc (env : Env) (lat lon : ℝ) (t : Datetime)
    (elevation_m linke_turbidity : ℝ) (ht : t.tzinfo = none) :
    compute_clear_sky env lat lon t elevation_m linke_turbidity
      = compute_clear_sky env lat lon { t with tzinfo := some Tzinfo.utc }
          elevation_m linke_turbidity := by
  have h1 : as_aware_utc t = { t with tzinfo := some Tzinfo.utc } :=
    as_aware_utc_of_none ht
  have h2 : as_aware_utc { t with tzinfo := some Tzinfo.utc }
      = { t with tzinfo := some Tzinfo.utc } :=
    as_aware_utc_of_some rfl
  simp only [compute_clear_sky, h1, h2]

theorem naive_timestamp_is_utc_check :
    dtNaive.tzinfo = none
    ∧ compute_clear_sky envDay 37 (-122) dtNaive 16 3
        = compute_clear_sky envDay 37 (-122)
            { dtNaive with tzinfo := some Tzinfo.utc } 16 3 :=
  ⟨rfl, naive_timestamp_is_utc envDay 37 (-122) dtNaive 16 3 rfl⟩

/-! ### Calibration helper -/

/-- Claim C7: the calibration helper fails with the validation error exactly
when the three sequences do not all share one length; no partial result is
produced in that case. -/
theorem calibration_length_validation (a b c : List ℚ) (me Me : ℚ) :
    estimate_site_scale_factor a b c me Me
        = Except.error "invalid_sequence_lengths"
      ↔ ¬ (a.length = b.length ∧ b.length = c.length) := by
  by_cases h : a.length = b.length ∧ b.length = c.length
  · simp only [estimate_site_scale_factor, if_neg (not_not_intro h)]
    apply iff_of_false
    · split <;> simp
    · exact not_not_intro h
  · simp only [estimate_site_scale_factor, if_pos h]
    exact iff_of_true trivial h

/-- One step of the sample filter: the source control flow (skip on
elevation out of range, skip on modeled below the floor, keep positive
quotients) keeps the sample exactly under the conjunction the spec states. -/
lemma filter_step_eq (obs md el me Me : ℚ) :
    (if el < me ∨ el > Me then none
     else if md ≤ 1e-6 then none
     else if obs / md > 0 then some (obs / md) else none)
    = (if me ≤ el ∧ el ≤ Me ∧ 1e-6 < md ∧ 0 < obs / md
        then some (obs / md) else none) := by
  by_cases h1 : el < me ∨ el > Me
  · rw [if_pos h1, if_neg]
    rintro ⟨ha, hb, -, -⟩
    rcases h1 with h | h <;> linarith
  · rw [if_neg h1]
    push_neg at h1
    by_cases h2 : md ≤ 1e-6
    · rw [if_pos h2, if_neg]
      rintro ⟨-, -, hc, -⟩
      linarith
    · rw [if_neg h2]
      push_neg at h2
      by_cases h3 : obs / md > 0
      · rw [if_pos h3, if_pos ⟨h1.1, h1.2, h2, h3⟩]
      · rw [if_neg h3, if_neg]
        rintro ⟨-, -, -, hd⟩
        exact h3 hd

/-- The filterMap over the zipped triple computed by the source equals the
index-based retained-sample list of the spec, given equal lengths. -/
lemma zip_filter_eq_retained (a : List ℚ) : ∀ (b c : List ℚ) (me Me : ℚ),
    a.length = b.length → b.length = c.length →
    (a.zip (b.zip c)).filterMap
      (fun p =>
        let obs := p.1
        let md := p.2.1
        let el := p.2.2
        if el < me ∨ el > Me then none
        else if md ≤ 1e-6 then none
        else
          let r := obs / md
          if r > 0 then some r else none)
      = retainedSamples a b c me Me := by
  induction a with
  | nil =>
    intro b c me Me hab hbc
    simp [retainedSamples]
  | cons x a ih =>
    intro b c me Me hab hbc
    cases b with
    | nil => simp at hab
    | cons y b =>
      cases c with
      | nil => simp at hbc
      | cons z c =>
        simp only [List.length_cons, Nat.succ.injEq] at hab hbc
        have htail := ih b c me Me hab hbc
        simp only [List.zip_cons_cons, List.filterMap_cons, retainedSamples,
          List.length_cons, List.range_succ_eq_map, List.filterMap_cons,
          List.filterMap_map] at htail ⊢
        rw [filter_step_eq]
        simp only [List.getD_cons_zero]
        have hcomp : List.filterMap ((fun i =>
              if me ≤ (z :: c).getD i 0 ∧ (z :: c).getD i 0 ≤ Me
                  ∧ 1e-6 < (y :: b).getD i 0
                  ∧ 0 < (x :: a).getD i 0 / (y :: b).getD i 0
                then some ((x :: a).getD i 0 / (y :: b).getD i 0)
                else none) ∘ Nat.succ) (List.range a.length)
            = List.filterMap (fun i =>
              if me ≤ c.getD i 0 ∧ c.getD i 0 ≤ Me ∧ 1e-6 < b.getD i 0
                  ∧ 0 < a.getD i 0 / b.getD i 0
                then some (a.getD i 0 / b.getD i 0) else none)
              (List.range a.length) := by
          apply List.filterMap_congr
          intro i _
          rfl
        rw [hcomp, htail]

/-- Claim C8: for equal-length inputs the helper returns the median of the
observed/modeled quotients over exactly the retained indices, and 1.0 when
no index is retained. -/
theorem calibration_returns_median (a b c : List ℚ) (me Me : ℚ)
    (h : a.length = b.length ∧ b.length = c.length) :
    estimate_site_scale_factor a b c me Me
      = Except.ok (if retainedSamples a b c me Me = []
          then 1.0 else median (retainedSamples a b c me Me)) := by
  simp only [estimate_site_scale_factor, if_neg (not_not_intro h)]
  rw [zip_filter_eq_retained a b c me Me h.1 h.2]
  split <;> rfl

theorem calibration_returns_median_check :
    (([100, 200] : List ℚ).length = ([50, 100] : List ℚ).length
      ∧ ([50, 100] : List ℚ).length = ([20, 30] : List ℚ).length)
    ∧ estimate_site_scale_factor [100, 200] [50, 100] [20, 30] 10 60
        = Except.ok 2 := by
  refine ⟨by decide, ?_⟩
  have h := calibration_returns_median [100, 200] [50, 100] [20, 30] 10 60
    (by decide)
  rw [h, Except.ok.injEq]
  have hr : retainedSamples [100, 200] [50, 100] [20, 30] 10 60 = [2, 2] := by
    norm_num [retainedSamples, List.range_succ, List.filterMap_cons, List.filterMap_nil,
      List.getD, List.getElem?_cons_zero, List.getElem?_cons_succ]
  rw [hr, if_neg (by simp)]
  norm_num [median, sortAsc, insertSorted, List.getD,
    List.getElem?_cons_zero, List.getElem?_cons_succ]

/-! ### Turbidity monotonicity: supporting lemmas -/

lemma turbidity_attenuation_pos (t : ℝ) : 0 < turbidity_attenuation t := by
  unfold turbidity_attenuation
  exact Real.exp_pos _

lemma turbidity_attenuation_antitone {t1 t2 : ℝ} (h : t1 ≤ t2) :
    turbidity_attenuation t2 ≤ turbidity_attenuation t1 := by
  unfold turbidity_attenuation
  apply Real.exp_le_exp.2
  have : max 1.5 (min 8 t1) ≤ max 1.5 (min 8 t2) :=
    max_le_max le_rfl (min_le_min le_rfl h)
  linarith

lemma turbidity_attenuation_strict {t1 t2 : ℝ}
    (h : max 1.5 (min 8 t1) < max 1.5 (min 8 t2)) :
    turbidity_attenuation t2 < turbidity_attenuation t1 := by
  unfold turbidity_attenuation
  apply Real.exp_lt_exp.2
  linarith

/-- The ERBS diffuse fraction stays inside `[0, 1]` on the reachable
clearness-index range `[0, 0.98]`. -/
lemma erbs_diffuse_fraction_mem (k : ℝ) (h0 : 0 ≤ k) (h1 : k ≤ 0.98) :
    0 ≤ erbs_diffuse_fraction k ∧ erbs_diffuse_fraction k ≤ 1 := by
  unfold erbs_diffuse_fraction
  split_ifs with hA hB
  · constructor <;> nlinarith
  · push_neg at hA
    constructor <;>
      nlinarith [mul_nonneg (sub_nonneg.2 hA) (sub_nonneg.2 hB.le),
        sq_nonneg (k - 0.22), sq_nonneg (k - 0.8), sq_nonneg k,
        mul_nonneg (mul_nonneg (sub_nonneg.2 hA) (sub_nonneg.2 hA)) (sub_nonneg.2 hB.le),
        mul_nonneg (mul_nonneg (sub_nonneg.2 hA) (sub_nonneg.2 hB.le)) (sub_nonneg.2 hB.le)]
  · norm_num

/-- Strict growth of the beam share `k · (1 − fd(k))` across the middle ERBS
branch, as a pure polynomial inequality. -/
lemma erbs_beam_mid_strict (x y : ℝ) (hx : 0.22 ≤ x) (hxy : x < y) (hy : y ≤ 0.8) :
    x * (1 - (0.9511 - 0.1604 * x + 4.388 * x ^ 2 - 16.638 * x ^ 3 + 12.336 * x ^ 4))
      < y * (1 - (0.9511 - 0.1604 * y + 4.388 * y ^ 2 - 16.638 * y ^ 3 + 12.336 * y ^ 4)) := by
  nlinarith [mul_pos (sub_pos.2 hxy) (sub_pos.2 hxy), sq_nonneg (x + y),
    sq_nonneg (x - y), sq_nonneg (x + y - 1), mul_nonneg (sub_nonneg.2 hx) (sub_nonneg.2 hy),
    mul_pos (sub_pos.2 hxy) (mul_pos (sub_pos.2 hxy) (sub_pos.2 hxy)),
    mul_nonneg (sub_nonneg.2 hx) (sub_nonneg.2 (le_of_lt hxy)),
    mul_nonneg (sub_nonneg.2 (le_trans hx (le_of_lt hxy))) (sub_nonneg.2 hy),
    mul_nonneg (mul_nonneg (sub_nonneg.2 hx) (sub_nonneg.2 hy)) (sub_nonneg.2 (le_of_lt hxy))]

/-- Lower bound for the middle-branch beam share: at least its value at 0.22. -/
lemma erbs_beam_mid_lb (y : ℝ) (h1 : 0.22 ≤ y) (h2 : y ≤ 0.8) :
    0.0044 ≤ y * (1 - (0.9511 - 0.1604 * y + 4.388 * y ^ 2 - 16.638 * y ^ 3 + 12.336 * y ^ 4)) := by
  rcases eq_or_lt_of_le h1 with he | hl
  · rw [← he]
    norm_num
  · have h := erbs_beam_mid_strict 0.22 y le_rfl hl h2
    nlinarith [h]

/-- Strict monotonicity of the beam share `k · (1 − fd(k))` on `[0, 0.98]`,
across all three ERBS branches. -/
lemma erbs_beam_strict (x y : ℝ) (hx : 0 ≤ x) (hxy : x < y) (_hy : y ≤ 0.98) :
    x * (1 - erbs_diffuse_fraction x) < y * (1 - erbs_diffuse_fraction y) := by
  unfold erbs_diffuse_fraction
  rcases lt_or_le x 0.22 with hxA | hxBC
  · rw [if_pos hxA]
    rcases lt_or_le y 0.22 with hyA | hyBC
    · rw [if_pos hyA]
      nlinarith [mul_self_lt_mul_self hx hxy]
    · rw [if_neg (not_lt.2 hyBC)]
      rcases lt_or_le y 0.8 with hyB | hyC
      · rw [if_pos hyB]
        nlinarith [erbs_beam_mid_lb y hyBC hyB.le, mul_self_lt_mul_self hx hxA]
      · rw [if_neg (not_lt.2 hyC)]
        nlinarith [mul_self_lt_mul_self hx hxA]
  · rw [if_neg (not_lt.2 hxBC)]
    have hyBC : ¬ y < 0.22 := not_lt.2 (by linarith)
    rw [if_neg hyBC]
    rcases lt_or_le x 0.8 with hxB | hxC
    · rw [if_pos hxB]
      rcases lt_or_le y 0.8 with hyB | hyC
      · rw [if_pos hyB]
        exact erbs_beam_mid_strict x y hxBC hxy hyB.le
      · rw [if_neg (not_lt.2 hyC)]
        nlinarith [erbs_beam_mid_strict x 0.8 hxBC hxB le_rfl]
    · have hyC : ¬ y < 0.8 := not_lt.2 (by linarith)
      rw [if_neg (not_lt.2 hxC), if_neg hyC]
      linarith

lemma haurwitz_ghi_from_mu_pos {mu : ℝ} (h : 0 < mu) : 0 < haurwitz_ghi_from_mu mu := by
  unfold haurwitz_ghi_from_mu
  rw [if_neg (not_le.2 h)]
  have h1 : (0:ℝ) < max 1e-6 mu := lt_of_lt_of_le (by norm_num) (le_max_left _ _)
  have h2 := Real.exp_pos (-0.057 / max 1e-6 mu)
  positivity

lemma mu_shape_correction_pos {mu : ℝ} (h : 0 < mu) (h1 : mu ≤ 1) :
    0 < mu_shape_correction mu := by
  unfold mu_shape_correction
  rw [if_neg (not_le.2 h)]
  have h2 : (1 - mu) ^ (1.6:ℝ) ≤ 1 :=
    Real.rpow_le_one (by linarith) (by linarith) (by norm_num)
  linarith

lemma altitude_gain_factor_pos (elevation_m : ℝ) : 0 < altitude_gain_factor elevation_m := by
  unfold altitude_gain_factor
  exact lt_of_lt_of_le (by norm_num) (le_max_left _ _)

/-- The source expression for DNI, rewritten as a positive multiple of the
beam share `k · (1 − fd(k))` at the (unclamped) clearness index. Requires
`0 ≤ g` and the extraterrestrial cap `g ≤ 0.98 · ghi0`, both established by
the pipeline. -/
lemma dni_eq_beam (g G0 M : ℝ) (hg0 : 0 ≤ g) (hcap : g ≤ 0.98 * G0) :
    max 0 ((g - max 0 (min g (erbs_diffuse_fraction (min 1.2 (g / max 1e-3 G0)) * g)))
        / max 1e-3 M)
      = max 1e-3 G0
          * ((g / max 1e-3 G0) * (1 - erbs_diffuse_fraction (g / max 1e-3 G0)))
          / max 1e-3 M := by
  have hG0g : (0:ℝ) < max 1e-3 G0 := lt_of_lt_of_le (by norm_num) (le_max_left _ _)
  have hMg : (0:ℝ) < max 1e-3 M := lt_of_lt_of_le (by norm_num) (le_max_left _ _)
  have hkt0 : 0 ≤ g / max 1e-3 G0 := div_nonneg hg0 hG0g.le
  have hkt98 : g / max 1e-3 G0 ≤ 0.98 := by
    rw [div_le_iff₀ hG0g]
    have h := le_max_right (1e-3 : ℝ) G0
    nlinarith
  rw [min_eq_right (le_trans hkt98 (by norm_num))]
  obtain ⟨hfd0, hfd1⟩ := erbs_diffuse_fraction_mem (g / max 1e-3 G0) hkt0 hkt98
  rw [min_eq_right (by nlinarith), max_eq_right (mul_nonneg hfd0 hg0)]
  have hnum : 0 ≤ g - erbs_diffuse_fraction (g / max 1e-3 G0) * g := by nlinarith
  rw [max_eq_right (div_nonneg hnum hMg.le)]
  have hgk : g = max 1e-3 G0 * (g / max 1e-3 G0) := by field_simp
  congr 1
  calc g - erbs_diffuse_fraction (g / max 1e-3 G0) * g
      = g * (1 - erbs_diffuse_fraction (g / max 1e-3 G0)) := by ring
    _ = max 1e-3 G0 * ((g / max 1e-3 G0) * (1 - erbs_diffuse_fraction (g / max 1e-3 G0))) := by
        rw [← mul_assoc, ← hgk]

/-- Claim C6: for fixed geometry, a larger Linke turbidity yields GHI and
DNI that are at most the smaller-turbidity values, and strictly smaller
unless a clamp bound is active: both turbidities clamp to the same value in
`[1.5, 8]`, or GHI is held at the `0.98·ghi0` cap, or GHI is 0. -/
theorem turbidity_monotonicity (env : Env) (lat lon : ℝ) (when : Datetime)
    (elevation_m t1 t2 : ℝ) (h12 : t1 < t2) :
    ((compute_clear_sky env lat lon when elevation_m t2).ghi
        ≤ (compute_clear_sky env lat lon when elevation_m t1).ghi
      ∧ (compute_clear_sky env lat lon when elevation_m t2).dni
        ≤ (compute_clear_sky env lat lon when elevation_m t1).dni)
    ∧ ((compute_clear_sky env lat lon when elevation_m t2).ghi
          < (compute_clear_sky env lat lon when elevation_m t1).ghi
        ∨ max 1.5 (min 8 t1) = max 1.5 (min 8 t2)
        ∨ (compute_clear_sky env lat lon when elevation_m t2).ghi
            = 0.98 * (ISC * eccentricity_correction (env.day_of_year (as_aware_utc when))
              * max 0 (mu_from_elevation (env.solar_elevation lat lon (as_aware_utc when))))
        ∨ (compute_clear_sky env lat lon when elevation_m t2).ghi = 0)
    ∧ ((compute_clear_sky env lat lon when elevation_m t2).dni
          < (compute_clear_sky env lat lon when elevation_m t1).dni
        ∨ max 1.5 (min 8 t1) = max 1.5 (min 8 t2)
        ∨ (compute_clear_sky env lat lon when elevation_m t2).ghi
            = 0.98 * (ISC * eccentricity_correction (env.day_of_year (as_aware_utc when))
              * max 0 (mu_from_elevation (env.solar_elevation lat lon (as_aware_utc when))))
        ∨ (compute_clear_sky env lat lon when elevation_m t2).ghi = 0) := by
  by_cases hnight : env.solar_elevation lat lon (as_aware_utc when) ≤ 0
  · have hz1 : compute_clear_sky env lat lon when elevation_m t1 = ⟨0, 0, 0⟩ := by
      simp only [compute_clear_sky]
      rw [if_pos hnight]
    have hz2 : compute_clear_sky env lat lon when elevation_m t2 = ⟨0, 0, 0⟩ := by
      simp only [compute_clear_sky]
      rw [if_pos hnight]
    rw [hz1, hz2]
    exact ⟨⟨le_rfl, le_rfl⟩, Or.inr (Or.inr (Or.inr rfl)), Or.inr (Or.inr (Or.inr rfl))⟩
  · push_neg at hnight
    rw [compute_clear_sky_day env lat lon when elevation_m t1
        _ _ _ _ _ _ _ _ _ _ _ rfl hnight rfl rfl rfl rfl rfl rfl rfl rfl rfl rfl,
      compute_clear_sky_day env lat lon when elevation_m t2
        _ _ _ _ _ _ _ _ _ _ _ rfl hnight rfl rfl rfl rfl rfl rfl rfl rfl rfl rfl]
    dsimp only
    set M := max 0 (mu_from_elevation (env.solar_elevation lat lon (as_aware_utc when)))
      with hMdef
    set G0 := ISC * eccentricity_correction (env.day_of_year (as_aware_utc when)) * M
      with hG0def
    set K := haurwitz_ghi_from_mu M * mu_shape_correction M
      * altitude_gain_factor elevation_m with hKdef
    by_cases hclamp : max 1.5 (min 8 t1) = max 1.5 (min 8 t2)
    · have hT : turbidity_attenuation t1 = turbidity_attenuation t2 := by
        unfold turbidity_attenuation
        rw [hclamp]
      rw [hT]
      exact ⟨⟨le_rfl, le_rfl⟩, Or.inr (Or.inl hclamp), Or.inr (Or.inl hclamp)⟩
    · have hclt : max 1.5 (min 8 t1) < max 1.5 (min 8 t2) :=
        lt_of_le_of_ne (max_le_max le_rfl (min_le_min le_rfl h12.le)) hclamp
      have hT21 : turbidity_attenuation t2 < turbidity_attenuation t1 :=
        turbidity_attenuation_strict hclt
      have hM0le : (0:ℝ) ≤ M := by
        rw [hMdef]
        exact le_max_left _ _
      rcases eq_or_lt_of_le hM0le with hM0 | hMpos
      · have hHW : haurwitz_ghi_from_mu M = 0 := by
          rw [← hM0]
          unfold haurwitz_ghi_from_mu
          rw [if_pos le_rfl]
        have hK0 : K = 0 := by
          rw [hKdef, hHW, zero_mul, zero_mul]
        have hG00 : G0 = 0 := by
          rw [hG0def, ← hM0, mul_zero]
        have hg : ∀ t : ℝ, max 0 (min (K * turbidity_attenuation t) (0.98 * G0)) = 0 := by
          intro t
          rw [hK0, hG00, zero_mul, mul_zero]
          norm_num
        rw [hg t1, hg t2]
        exact ⟨⟨le_rfl, le_rfl⟩, Or.inr (Or.inr (Or.inr rfl)), Or.inr (Or.inr (Or.inr rfl))⟩
      · have hMle1 : M ≤ 1 := by
          rw [hMdef]
          exact mu_clamped_le_one _
        have hKpos : 0 < K := by
          rw [hKdef]
          exact mul_pos (mul_pos (haurwitz_ghi_from_mu_pos hMpos)
            (mu_shape_correction_pos hMpos hMle1)) (altitude_gain_factor_pos _)
        have hG0pos : 0 < G0 := by
          rw [hG0def]
          exact mul_pos (mul_pos ISC_pos (eccentricity_correction_pos _)) hMpos
        have hcappos : (0:ℝ) < 0.98 * G0 := by linarith
        have hraw : K * turbidity_attenuation t2 < K * turbidity_attenuation t1 :=
          (mul_lt_mul_left hKpos).2 hT21
        have hraw2pos : 0 < K * turbidity_attenuation t2 :=
          mul_pos hKpos (turbidity_attenuation_pos t2)
        set g1 := max 0 (min (K * turbidity_attenuation t1) (0.98 * G0)) with hg1def
        set g2 := max 0 (min (K * turbidity_attenuation t2) (0.98 * G0)) with hg2def
        have hg10 : 0 ≤ g1 := by
          rw [hg1def]
          exact le_max_left _ _
        have hg20 : 0 ≤ g2 := by
          rw [hg2def]
          exact le_max_left _ _
        have hg1cap : g1 ≤ 0.98 * G0 := by
          rw [hg1def]
          exact max_le (by linarith) (min_le_right _ _)
        have hg2cap : g2 ≤ 0.98 * G0 := by
          rw [hg2def]
          exact max_le (by linarith) (min_le_right _ _)
        rw [dni_eq_beam g2 G0 M hg20 hg2cap, dni_eq_beam g1 G0 M hg10 hg1cap]
        have hG0g : (0:ℝ) < max 1e-3 G0 := lt_of_lt_of_le (by norm_num) (le_max_left _ _)
        have hMg : (0:ℝ) < max 1e-3 M := lt_of_lt_of_le (by norm_num) (le_max_left _ _)
        by_cases hcapped : 0.98 * G0 ≤ K * turbidity_attenuation t2
        · have hg2v : g2 = 0.98 * G0 := by
            rw [hg2def, min_eq_right hcapped, max_eq_right hcappos.le]
          have hg1v : g1 = 0.98 * G0 := by
            rw [hg1def, min_eq_right (by linarith), max_eq_right hcappos.le]
          rw [hg1v, hg2v]
          exact ⟨⟨le_rfl, le_rfl⟩, Or.inr (Or.inr (Or.inl rfl)), Or.inr (Or.inr (Or.inl rfl))⟩
        · push_neg at hcapped
          have hg2v : g2 = K * turbidity_attenuation t2 := by
            rw [hg2def, min_eq_left hcapped.le, max_eq_right hraw2pos.le]
          have hgs : g2 < g1 := by
            rw [hg2v, hg1def]
            exact lt_of_lt_of_le (lt_min hraw hcapped) (le_max_right _ _)
          have hkt2lt : g2 / max 1e-3 G0 < g1 / max 1e-3 G0 :=
            (div_lt_div_iff_of_pos_right hG0g).2 hgs
          have hkt20 : 0 ≤ g2 / max 1e-3 G0 := div_nonneg hg20 hG0g.le
          have hkt198 : g1 / max 1e-3 G0 ≤ 0.98 := by
            rw [div_le_iff₀ hG0g]
            have h := le_max_right (1e-3:ℝ) G0
            nlinarith
          have hb := erbs_beam_strict _ _ hkt20 hkt2lt hkt198
          have hdni : max 1e-3 G0
              * ((g2 / max 1e-3 G0) * (1 - erbs_diffuse_fraction (g2 / max 1e-3 G0)))
              / max 1e-3 M
              < max 1e-3 G0
                * ((g1 / max 1e-3 G0) * (1 - erbs_diffuse_fraction (g1 / max 1e-3 G0)))
                / max 1e-3 M :=
            (div_lt_div_iff_of_pos_right hMg).2 ((mul_lt_mul_left hG0g).2 hb)
          exact ⟨⟨hgs.le, hdni.le⟩, Or.inl hgs, Or.inl hdni⟩

theorem turbidity_monotonicity_check :
    ((3:ℝ) < 4)
    ∧ (((compute_clear_sky envDay 37 (-122) dtAware 16 4).ghi
        ≤ (compute_clear_sky envDay 37 (-122) dtAware 16 3).ghi
      ∧ (compute_clear_sky envDay 37 (-122) dtAware 16 4).dni
        ≤ (compute_clear_sky envDay 37 (-122) dtAware 16 3).dni)
    ∧ ((compute_clear_sky envDay 37 (-122) dtAware 16 4).ghi
          < (compute_clear_sky envDay 37 (-122) dtAware 16 3).ghi
        ∨ max 1.5 (min 8 (3:ℝ)) = max 1.5 (min 8 (4:ℝ))
        ∨ (compute_clear_sky envDay 37 (-122) dtAware 16 4).ghi
            = 0.98 * (ISC * eccentricity_correction (envDay.day_of_year (as_aware_utc dtAware))
              * max 0 (mu_from_elevation (envDay.solar_elevation 37 (-122) (as_aware_utc dtAware))))
        ∨ (compute_clear_sky envDay 37 (-122) dtAware 16 4).ghi = 0)
    ∧ ((compute_clear_sky envDay 37 (-122) dtAware 16 4).dni
          < (compute_clear_sky envDay 37 (-122) dtAware 16 3).dni
        ∨ max 1.5 (min 8 (3:ℝ)) = max 1.5 (min 8 (4:ℝ))
        ∨ (compute_clear_sky envDay 37 (-122) dtAware 16 4).ghi
            = 0.98 * (ISC * eccentricity_correction (envDay.day_of_year (as_aware_utc dtAware))
              * max 0 (mu_from_elevation (envDay.solar_elevation 37 (-122) (as_aware_utc dtAware))))
        ∨ (compute_clear_sky envDay 37 (-122) dtAware 16 4).ghi = 0)) :=
  ⟨by norm_num, turbidity_monotonicity envDay 37 (-122) dtAware 16 3 4 (by norm_num)⟩

end ClearSkySolar
